import Mathlib

/-!
Verification development for the nRF full modem firmware update (FMFU)
control API declared in `src/bsdlib/include/nrf_fmfu.h`.

The header declares return-code constants, modem-state constants, two
fixed-size buffer structures, a memory-chunk descriptor and eight
function prototypes.  The functions themselves are implemented in a
closed-source library that is not part of the repository, so their
behaviour is modelled here from the specification's words (each such
definition carries a doc comment starting `Modelled from the spec:`).
The constants and structure shapes are translated directly from the
header.
-/

namespace NrfFmfu

/-- Function return code `NRF_FMFU_RET_SUCCESS`, declared as `0` in nrf_fmfu.h. -/
def NRF_FMFU_RET_SUCCESS : Int := 0

/-- Function return code `NRF_FMFU_RET_IPC_FAULT_EVENT`, declared as `-1`. -/
def NRF_FMFU_RET_IPC_FAULT_EVENT : Int := -1

/-- Function return code `NRF_FMFU_RET_UNEXPECTED_RESPONSE`, declared as `-2`. -/
def NRF_FMFU_RET_UNEXPECTED_RESPONSE : Int := -2

/-- Function return code `NRF_FMFU_RET_COMMAND_FAILED`, declared as `-3`. -/
def NRF_FMFU_RET_COMMAND_FAILED : Int := -3

/-- Function return code `NRF_FMFU_RET_COMMAND_FAULT`, declared as `-4`. -/
def NRF_FMFU_RET_COMMAND_FAULT : Int := -4

/-- Function return code `NRF_FMFU_RET_TIMEOUT`, declared as `-5`. -/
def NRF_FMFU_RET_TIMEOUT : Int := -5

/-- Function return code `NRF_FMFU_RET_INVALID_ARGUMENT`, declared as `-6`. -/
def NRF_FMFU_RET_INVALID_ARGUMENT : Int := -6

/-- Function return code `NRF_FMFU_RET_INVALID_OPERATION`, declared as `-7`. -/
def NRF_FMFU_RET_INVALID_OPERATION : Int := -7

/-- The eight function return codes of nrf_fmfu.h, in declaration order. -/
def returnCodes : List Int :=
  [NRF_FMFU_RET_SUCCESS, NRF_FMFU_RET_IPC_FAULT_EVENT,
   NRF_FMFU_RET_UNEXPECTED_RESPONSE, NRF_FMFU_RET_COMMAND_FAILED,
   NRF_FMFU_RET_COMMAND_FAULT, NRF_FMFU_RET_TIMEOUT,
   NRF_FMFU_RET_INVALID_ARGUMENT, NRF_FMFU_RET_INVALID_OPERATION]

/-- The seven failure return codes (all return codes except success). -/
def failureCodes : List Int :=
  [NRF_FMFU_RET_IPC_FAULT_EVENT, NRF_FMFU_RET_UNEXPECTED_RESPONSE,
   NRF_FMFU_RET_COMMAND_FAILED, NRF_FMFU_RET_COMMAND_FAULT,
   NRF_FMFU_RET_TIMEOUT, NRF_FMFU_RET_INVALID_ARGUMENT,
   NRF_FMFU_RET_INVALID_OPERATION]

/-- Modem state `NRF_FMFU_MODEM_STATE_UNINITIALIZED`, declared as `1`. -/
def NRF_FMFU_MODEM_STATE_UNINITIALIZED : Int := 1

/-- Modem state `NRF_FMFU_MODEM_STATE_WAITING_FOR_BOOTLOADER`, declared as `2`. -/
def NRF_FMFU_MODEM_STATE_WAITING_FOR_BOOTLOADER : Int := 2

/-- Modem state `NRF_FMFU_MODEM_STATE_READY_FOR_IPC_COMMANDS`, declared as `3`. -/
def NRF_FMFU_MODEM_STATE_READY_FOR_IPC_COMMANDS : Int := 3

/-- Modem state `NRF_FMFU_MODEM_STATE_BAD`, declared as `4`. -/
def NRF_FMFU_MODEM_STATE_BAD : Int := 4

/-- The four modem-state constants of nrf_fmfu.h, in declaration order. -/
def modemStateValues : List Int :=
  [NRF_FMFU_MODEM_STATE_UNINITIALIZED,
   NRF_FMFU_MODEM_STATE_WAITING_FOR_BOOTLOADER,
   NRF_FMFU_MODEM_STATE_READY_FOR_IPC_COMMANDS,
   NRF_FMFU_MODEM_STATE_BAD]

/-- Buffer length `NRF_FMFU_DIGEST_BUFFER_LEN`, declared as `32`. -/
def NRF_FMFU_DIGEST_BUFFER_LEN : Nat := 32

/-- Buffer length `NRF_FMFU_UUID_BUFFER_LEN`, declared as `36`. -/
def NRF_FMFU_UUID_BUFFER_LEN : Nat := 36

/-- Structure `nrf_fmfu_digest_buffer_t`: a fixed array of
`NRF_FMFU_DIGEST_BUFFER_LEN` bytes (`uint8_t data[32]`). -/
structure nrf_fmfu_digest_buffer_t where
  data : List Nat
  data_length : data.length = NRF_FMFU_DIGEST_BUFFER_LEN
  data_bytes : ∀ b ∈ data, b < 256
deriving DecidableEq

/-- Structure `nrf_fmfu_uuid_t`: a fixed array of
`NRF_FMFU_UUID_BUFFER_LEN` bytes (`uint8_t data[36]`). -/
structure nrf_fmfu_uuid_t where
  data : List Nat
  data_length : data.length = NRF_FMFU_UUID_BUFFER_LEN
  data_bytes : ∀ b ∈ data, b < 256
deriving DecidableEq

/-- Structure `nrf_fmfu_memory_chunk_t`: destination address (`uint32_t`,
not used for the bootloader segment), chunk length (`uint32_t`) and the
chunk bytes referenced by the `uint8_t *data` pointer. -/
structure nrf_fmfu_memory_chunk_t where
  target_address : Nat
  data_len : Nat
  data : List Nat
deriving DecidableEq

/-- The four modem lifecycle states as an enumeration.  The header
declares them as the integer constants 1 to 4. -/
inductive ModemState where
  | uninitialized
  | waitingForBootloader
  | readyForIpcCommands
  | bad
deriving DecidableEq

/-- Integer value of a modem state, as declared in nrf_fmfu.h. -/
def ModemState.toInt : ModemState → Int
  | .uninitialized => NRF_FMFU_MODEM_STATE_UNINITIALIZED
  | .waitingForBootloader => NRF_FMFU_MODEM_STATE_WAITING_FOR_BOOTLOADER
  | .readyForIpcCommands => NRF_FMFU_MODEM_STATE_READY_FOR_IPC_COMMANDS
  | .bad => NRF_FMFU_MODEM_STATE_BAD

/-- Modelled from the spec: the library's hidden state, absent from the
repository (only the header is supplied).  It holds the current modem
lifecycle state and, to make the effect of uploads observable, the log
of memory chunks the modem has accepted: `none` as first component for
bootloader data (whose target address the modem does not read), or the
chunk's target address for ordinary firmware data. -/
structure FmfuState where
  modem_state : ModemState
  received : List (Option Nat × List Nat)
deriving DecidableEq

/-- Modelled from the spec: the possible modem-side outcomes of
`nrf_fmfu_init`, whose implementation is absent.  On success the modem
answers with its root-key digest and the reserved RPC buffer length;
otherwise it signals a fault on the IPC fault channel or replies with
an unexpected response, matching the retval list of `nrf_fmfu_init`. -/
inductive InitResponse where
  | ok (digest : nrf_fmfu_digest_buffer_t) (buffer_length : Nat)
  | ipcFault
  | unexpectedResponse

/-- Modelled from the spec: the possible modem-side outcomes of
`nrf_fmfu_write_memory_chunk` and `nrf_fmfu_transfer_end`, whose
implementations are absent: success, unknown-command reply
(command-fault), error reply (command-failed), unexpected response,
IPC fault signal, or timeout. -/
inductive WriteResponse where
  | ok
  | unknownCmd
  | cmdError
  | unexpectedResponse
  | ipcFault
  | timeout

/-- Modelled from the spec: the possible modem-side outcomes of
`nrf_fmfu_get_memory_hash`, whose implementation is absent.  On success
the modem answers with the digest over the requested range. -/
inductive HashResponse where
  | ok (digest : nrf_fmfu_digest_buffer_t)
  | unknownCmd
  | cmdError
  | unexpectedResponse
  | ipcFault
  | timeout

/-- Modelled from the spec: the possible modem-side outcomes of
`nrf_fmfu_get_uuid`, whose implementation is absent.  On success the
modem answers with its UUID bytes. -/
inductive UuidResponse where
  | ok (uuid : nrf_fmfu_uuid_t)
  | unknownCmd
  | cmdError
  | unexpectedResponse
  | ipcFault
  | timeout

/-- Modelled from the spec: the possible modem-side outcomes of
`nrf_fmfu_end`, whose implementation is absent: the modem restarts into
normal mode, or cannot be restarted (unexpected response). -/
inductive EndResponse where
  | ok
  | unexpectedResponse

/-- Modelled from the spec: `nrf_fmfu_init`, whose implementation is
absent from the repository.  Output pointers are modelled as `Option`
arguments (`none` is a NULL pointer).  A NULL output pointer yields
`NRF_FMFU_RET_INVALID_ARGUMENT`.  On success the root-key digest
response is placed in the digest buffer, the reserved RPC buffer length
in the length output, and the modem enters the waiting-for-bootloader
state.  A fault signalled on the IPC channel yields
`NRF_FMFU_RET_IPC_FAULT_EVENT` and puts the modem in the bad state; an
unexpected response yields `NRF_FMFU_RET_UNEXPECTED_RESPONSE`.
Returns the return code, the new library state, and what was written
through the two output pointers. -/
def nrf_fmfu_init (digest_buffer : Option Unit) (modem_buffer_length : Option Unit)
    (resp : InitResponse) (s : FmfuState) :
    Int × FmfuState × Option nrf_fmfu_digest_buffer_t × Option Nat :=
  match digest_buffer, modem_buffer_length with
  | none, _ => (NRF_FMFU_RET_INVALID_ARGUMENT, s, none, none)
  | _, none => (NRF_FMFU_RET_INVALID_ARGUMENT, s, none, none)
  | some _, some _ =>
    match resp with
    | .ok digest buffer_length =>
        (NRF_FMFU_RET_SUCCESS,
         { s with modem_state := .waitingForBootloader },
         some digest, some buffer_length)
    | .ipcFault =>
        (NRF_FMFU_RET_IPC_FAULT_EVENT, { s with modem_state := .bad }, none, none)
    | .unexpectedResponse =>
        (NRF_FMFU_RET_UNEXPECTED_RESPONSE, s, none, none)

/-- Modelled from the spec: `nrf_fmfu_end`, whose implementation is
absent.  It restores the modem to normal operating mode; the only
documented failure is an unexpected response when the modem cannot be
restarted.  No transition between the four lifecycle states is
documented for it, so the tracked state is unchanged. -/
def nrf_fmfu_end (resp : EndResponse) (s : FmfuState) : Int × FmfuState :=
  match resp with
  | .ok => (NRF_FMFU_RET_SUCCESS, s)
  | .unexpectedResponse => (NRF_FMFU_RET_UNEXPECTED_RESPONSE, s)

/-- Modelled from the spec: `nrf_fmfu_write_memory_chunk`, whose
implementation is absent.  A NULL chunk pointer yields
`NRF_FMFU_RET_INVALID_ARGUMENT`.  In the waiting-for-bootloader state
the chunk belongs to the bootloader segment: its target address is not
read by the modem, and a successful upload moves the modem to the
ready-for-IPC-commands state.  In the ready-for-IPC-commands state the
chunk is ordinary firmware data written at its target address.  In any
other state the call is refused with
`NRF_FMFU_RET_INVALID_OPERATION`.  A fault signalled on the IPC
channel puts the modem in the bad state; the remaining modem outcomes
map to their documented return codes and leave the state unchanged. -/
def nrf_fmfu_write_memory_chunk (memory_chunk : Option nrf_fmfu_memory_chunk_t)
    (resp : WriteResponse) (s : FmfuState) : Int × FmfuState :=
  match memory_chunk with
  | none => (NRF_FMFU_RET_INVALID_ARGUMENT, s)
  | some chunk =>
    match s.modem_state with
    | .waitingForBootloader =>
      match resp with
      | .ok => (NRF_FMFU_RET_SUCCESS,
                { modem_state := .readyForIpcCommands,
                  received := s.received ++ [(none, chunk.data)] })
      | .unknownCmd => (NRF_FMFU_RET_COMMAND_FAULT, s)
      | .cmdError => (NRF_FMFU_RET_COMMAND_FAILED, s)
      | .unexpectedResponse => (NRF_FMFU_RET_UNEXPECTED_RESPONSE, s)
      | .ipcFault => (NRF_FMFU_RET_IPC_FAULT_EVENT, { s with modem_state := .bad })
      | .timeout => (NRF_FMFU_RET_TIMEOUT, s)
    | .readyForIpcCommands =>
      match resp with
      | .ok => (NRF_FMFU_RET_SUCCESS,
                { s with received := s.received ++ [(some chunk.target_address, chunk.data)] })
      | .unknownCmd => (NRF_FMFU_RET_COMMAND_FAULT, s)
      | .cmdError => (NRF_FMFU_RET_COMMAND_FAILED, s)
      | .unexpectedResponse => (NRF_FMFU_RET_UNEXPECTED_RESPONSE, s)
      | .ipcFault => (NRF_FMFU_RET_IPC_FAULT_EVENT, { s with modem_state := .bad })
      | .timeout => (NRF_FMFU_RET_TIMEOUT, s)
    | _ => (NRF_FMFU_RET_INVALID_OPERATION, s)

/-- Modelled from the spec: `nrf_fmfu_transfer_start`, whose
implementation is absent.  It begins a logical segment transfer; the
only documented failure is `NRF_FMFU_RET_INVALID_OPERATION` when the
modem state disallows it (segments are transferred in the
waiting-for-bootloader and ready-for-IPC-commands states).  No state
transition is documented for it. -/
def nrf_fmfu_transfer_start (s : FmfuState) : Int × FmfuState :=
  match s.modem_state with
  | .waitingForBootloader => (NRF_FMFU_RET_SUCCESS, s)
  | .readyForIpcCommands => (NRF_FMFU_RET_SUCCESS, s)
  | _ => (NRF_FMFU_RET_INVALID_OPERATION, s)

/-- Modelled from the spec: `nrf_fmfu_transfer_end`, whose
implementation is absent.  It ends a logical segment transfer; its
documented failures are invalid-operation (wrong state),
command-fault, command-failed and unexpected-response.  Its retval
list has no IPC-fault entry and no state transition is documented for
it, so the tracked state is unchanged. -/
def nrf_fmfu_transfer_end (resp : WriteResponse) (s : FmfuState) : Int × FmfuState :=
  match s.modem_state with
  | .waitingForBootloader =>
    match resp with
    | .ok => (NRF_FMFU_RET_SUCCESS, s)
    | .unknownCmd => (NRF_FMFU_RET_COMMAND_FAULT, s)
    | .cmdError => (NRF_FMFU_RET_COMMAND_FAILED, s)
    | _ => (NRF_FMFU_RET_UNEXPECTED_RESPONSE, s)
  | .readyForIpcCommands =>
    match resp with
    | .ok => (NRF_FMFU_RET_SUCCESS, s)
    | .unknownCmd => (NRF_FMFU_RET_COMMAND_FAULT, s)
    | .cmdError => (NRF_FMFU_RET_COMMAND_FAILED, s)
    | _ => (NRF_FMFU_RET_UNEXPECTED_RESPONSE, s)
  | _ => (NRF_FMFU_RET_INVALID_OPERATION, s)

/-- Modelled from the spec: `nrf_fmfu_get_memory_hash`, whose
implementation is absent.  A NULL digest pointer yields
`NRF_FMFU_RET_INVALID_ARGUMENT`; in a state where the query is not
allowed it yields `NRF_FMFU_RET_INVALID_OPERATION`; otherwise the
modem outcome determines the code, an IPC fault moves the modem to the
bad state, and on success the digest over the requested range is
written through the output pointer. -/
def nrf_fmfu_get_memory_hash (start_address : Nat) (end_address : Nat)
    (digest_buffer : Option Unit) (resp : HashResponse) (s : FmfuState) :
    Int × FmfuState × Option nrf_fmfu_digest_buffer_t :=
  match digest_buffer with
  | none => (NRF_FMFU_RET_INVALID_ARGUMENT, s, none)
  | some _ =>
    match s.modem_state with
    | .waitingForBootloader =>
      match resp with
      | .ok digest => (NRF_FMFU_RET_SUCCESS, s, some digest)
      | .unknownCmd => (NRF_FMFU_RET_COMMAND_FAULT, s, none)
      | .cmdError => (NRF_FMFU_RET_COMMAND_FAILED, s, none)
      | .unexpectedResponse => (NRF_FMFU_RET_UNEXPECTED_RESPONSE, s, none)
      | .ipcFault => (NRF_FMFU_RET_IPC_FAULT_EVENT, { s with modem_state := .bad }, none)
      | .timeout => (NRF_FMFU_RET_TIMEOUT, s, none)
    | .readyForIpcCommands =>
      match resp with
      | .ok digest => (NRF_FMFU_RET_SUCCESS, s, some digest)
      | .unknownCmd => (NRF_FMFU_RET_COMMAND_FAULT, s, none)
      | .cmdError => (NRF_FMFU_RET_COMMAND_FAILED, s, none)
      | .unexpectedResponse => (NRF_FMFU_RET_UNEXPECTED_RESPONSE, s, none)
      | .ipcFault => (NRF_FMFU_RET_IPC_FAULT_EVENT, { s with modem_state := .bad }, none)
      | .timeout => (NRF_FMFU_RET_TIMEOUT, s, none)
    | _ => (NRF_FMFU_RET_INVALID_OPERATION, s, none)

/-- Modelled from the spec: `nrf_fmfu_get_uuid`, whose implementation
is absent.  A NULL output pointer yields
`NRF_FMFU_RET_INVALID_ARGUMENT`; in a state where the query is not
allowed it yields `NRF_FMFU_RET_INVALID_OPERATION`; otherwise the
modem outcome determines the code, an IPC fault moves the modem to the
bad state, and on success the modem UUID bytes are written through the
output pointer. -/
def nrf_fmfu_get_uuid (modem_uuid : Option Unit) (resp : UuidResponse) (s : FmfuState) :
    Int × FmfuState × Option nrf_fmfu_uuid_t :=
  match modem_uuid with
  | none => (NRF_FMFU_RET_INVALID_ARGUMENT, s, none)
  | some _ =>
    match s.modem_state with
    | .waitingForBootloader =>
      match resp with
      | .ok uuid => (NRF_FMFU_RET_SUCCESS, s, some uuid)
      | .unknownCmd => (NRF_FMFU_RET_COMMAND_FAULT, s, none)
      | .cmdError => (NRF_FMFU_RET_COMMAND_FAILED, s, none)
      | .unexpectedResponse => (NRF_FMFU_RET_UNEXPECTED_RESPONSE, s, none)
      | .ipcFault => (NRF_FMFU_RET_IPC_FAULT_EVENT, { s with modem_state := .bad }, none)
      | .timeout => (NRF_FMFU_RET_TIMEOUT, s, none)
    | .readyForIpcCommands =>
      match resp with
      | .ok uuid => (NRF_FMFU_RET_SUCCESS, s, some uuid)
      | .unknownCmd => (NRF_FMFU_RET_COMMAND_FAULT, s, none)
      | .cmdError => (NRF_FMFU_RET_COMMAND_FAILED, s, none)
      | .unexpectedResponse => (NRF_FMFU_RET_UNEXPECTED_RESPONSE, s, none)
      | .ipcFault => (NRF_FMFU_RET_IPC_FAULT_EVENT, { s with modem_state := .bad }, none)
      | .timeout => (NRF_FMFU_RET_TIMEOUT, s, none)
    | _ => (NRF_FMFU_RET_INVALID_OPERATION, s, none)

/-- Modelled from the spec: `nrf_fmfu_get_modem_state`, whose
implementation is absent.  Callable at any time; it always succeeds
and returns the current modem state as the function's integer
result. -/
def nrf_fmfu_get_modem_state (s : FmfuState) : Int :=
  s.modem_state.toInt

/-- A sample 32-byte digest value, used to instantiate witnesses. -/
def sampleDigest : nrf_fmfu_digest_buffer_t :=
  ⟨List.replicate 32 0, by decide, by decide⟩

/-- C4 counterexample: the claim calls all eight return codes negative,
but `NRF_FMFU_RET_SUCCESS` is declared as `0`, which is not negative. -/
theorem return_code_success_not_negative :
    NRF_FMFU_RET_SUCCESS = 0 ∧ ¬(NRF_FMFU_RET_SUCCESS < 0) := by
  decide

/-- C4 (amended): the function return codes form a flat set of eight
integer codes — one success code equal to `0` and seven negative
failure codes (IPC fault event, unexpected response, command failed,
command fault, timeout, invalid argument, invalid operation) — and
each return code constant has a unique integer value as declared. -/
theorem return_codes_flat_unique :
    NRF_FMFU_RET_SUCCESS = 0 ∧
    NRF_FMFU_RET_IPC_FAULT_EVENT = -1 ∧
    NRF_FMFU_RET_UNEXPECTED_RESPONSE = -2 ∧
    NRF_FMFU_RET_COMMAND_FAILED = -3 ∧
    NRF_FMFU_RET_COMMAND_FAULT = -4 ∧
    NRF_FMFU_RET_TIMEOUT = -5 ∧
    NRF_FMFU_RET_INVALID_ARGUMENT = -6 ∧
    NRF_FMFU_RET_INVALID_OPERATION = -7 ∧
    returnCodes.length = 8 ∧
    returnCodes.Pairwise (fun a b => a ≠ b) ∧
    (∀ c ∈ failureCodes, c < 0) := by
  decide

/-- C5: the modem state is an enumeration of exactly four members —
uninitialized, waiting-for-bootloader, ready-for-IPC-commands and
bad — and each modem-state constant has a unique integer value as
declared (1, 2, 3 and 4). -/
theorem modem_state_constants_unique :
    NRF_FMFU_MODEM_STATE_UNINITIALIZED = 1 ∧
    NRF_FMFU_MODEM_STATE_WAITING_FOR_BOOTLOADER = 2 ∧
    NRF_FMFU_MODEM_STATE_READY_FOR_IPC_COMMANDS = 3 ∧
    NRF_FMFU_MODEM_STATE_BAD = 4 ∧
    modemStateValues.length = 4 ∧
    modemStateValues.Pairwise (fun a b => a ≠ b) ∧
    (∀ m : ModemState, ModemState.toInt m ∈ modemStateValues) ∧
    Function.Injective ModemState.toInt := by
  refine ⟨rfl, rfl, rfl, rfl, rfl, by decide, ?_, ?_⟩
  · intro m
    cases m <;> decide
  · intro a b h
    cases a <;> cases b <;> first | rfl | exact absurd h (by decide)

/-- C6: the digest buffer structure holds exactly 32 bytes
(`NRF_FMFU_DIGEST_BUFFER_LEN = 32`) and the UUID buffer structure
holds exactly 36 bytes (`NRF_FMFU_UUID_BUFFER_LEN = 36`). -/
theorem buffer_sizes_exact :
    NRF_FMFU_DIGEST_BUFFER_LEN = 32 ∧
    NRF_FMFU_UUID_BUFFER_LEN = 36 ∧
    (∀ b : nrf_fmfu_digest_buffer_t, b.data.length = 32) ∧
    (∀ u : nrf_fmfu_uuid_t, u.data.length = 36) :=
  ⟨rfl, rfl, fun b => b.data_length, fun u => u.data_length⟩

/-- C9: the modem-state values (all positive, 1 to 4) are disjoint from
the return-code values (success is 0, every failure negative), so the
integer result of `nrf_fmfu_get_modem_state` can never be mistaken for
a function return code. -/
theorem modem_states_disjoint_from_return_codes :
    (∀ v ∈ modemStateValues, 0 < v) ∧
    NRF_FMFU_RET_SUCCESS = 0 ∧
    (∀ c ∈ failureCodes, c < 0) ∧
    (∀ v ∈ modemStateValues, ∀ c ∈ returnCodes, v ≠ c) ∧
    (∀ s : FmfuState, nrf_fmfu_get_modem_state s ∉ returnCodes) := by
  refine ⟨by decide, rfl, by decide, by decide, ?_⟩
  intro s
  obtain ⟨ms, rcv⟩ := s
  cases ms <;> simp only [nrf_fmfu_get_modem_state] <;> decide

/-- C2: calling a modem-query function that documents an output pointer
(`nrf_fmfu_init`, `nrf_fmfu_get_memory_hash`, `nrf_fmfu_get_uuid`)
with a NULL output-pointer argument returns
`NRF_FMFU_RET_INVALID_ARGUMENT` (-6) rather than crashing, whatever
the modem outcome and the current state. -/
theorem null_output_pointer_invalid_argument :
    (∀ (lp : Option Unit) (resp : InitResponse) (s : FmfuState),
       (nrf_fmfu_init none lp resp s).1 = NRF_FMFU_RET_INVALID_ARGUMENT) ∧
    (∀ (dp : Option Unit) (resp : InitResponse) (s : FmfuState),
       (nrf_fmfu_init dp none resp s).1 = NRF_FMFU_RET_INVALID_ARGUMENT) ∧
    (∀ (a b : Nat) (resp : HashResponse) (s : FmfuState),
       (nrf_fmfu_get_memory_hash a b none resp s).1 = NRF_FMFU_RET_INVALID_ARGUMENT) ∧
    (∀ (resp : UuidResponse) (s : FmfuState),
       (nrf_fmfu_get_uuid none resp s).1 = NRF_FMFU_RET_INVALID_ARGUMENT) := by
  refine ⟨fun lp resp s => ?_, fun dp resp s => ?_, fun a b resp s => rfl,
    fun resp s => rfl⟩
  · cases lp <;> rfl
  · cases dp <;> rfl

/-- C7: `nrf_fmfu_get_modem_state` can be called in any state, always
succeeds (its result is positive, hence never a failure code), and its
integer result is always one of the four declared modem-state
values. -/
theorem get_modem_state_always_in_range :
    ∀ s : FmfuState,
      0 < nrf_fmfu_get_modem_state s ∧
      nrf_fmfu_get_modem_state s ∈ modemStateValues ∧
      (∀ c ∈ failureCodes, nrf_fmfu_get_modem_state s ≠ c) := by
  intro s
  obtain ⟨ms, rcv⟩ := s
  cases ms <;> simp only [nrf_fmfu_get_modem_state] <;> exact ⟨by decide, by decide, by decide⟩

/-- C8: `nrf_fmfu_transfer_start` returns only `NRF_FMFU_RET_SUCCESS`
or `NRF_FMFU_RET_INVALID_OPERATION`, and the latter exactly when the
modem state disallows starting a segment transfer (the uninitialized
and bad states). -/
theorem transfer_start_two_codes :
    ∀ s : FmfuState,
      ((nrf_fmfu_transfer_start s).1 = NRF_FMFU_RET_SUCCESS ∨
       (nrf_fmfu_transfer_start s).1 = NRF_FMFU_RET_INVALID_OPERATION) ∧
      ((nrf_fmfu_transfer_start s).1 = NRF_FMFU_RET_INVALID_OPERATION ↔
        (s.modem_state = ModemState.uninitialized ∨ s.modem_state = ModemState.bad)) := by
  intro s
  obtain ⟨ms, rcv⟩ := s
  cases ms <;> simp [nrf_fmfu_transfer_start, NRF_FMFU_RET_SUCCESS,
    NRF_FMFU_RET_INVALID_OPERATION]

/-- C3: whenever `nrf_fmfu_init` returns `NRF_FMFU_RET_SUCCESS`, the
modem answered with a digest and an RPC buffer length, the digest was
written to the caller's digest buffer, the length was stored through
the `modem_buffer_length` argument, and the modem was left in the
waiting-for-bootloader state. -/
theorem init_success_contract :
    ∀ (dp lp : Option Unit) (resp : InitResponse) (s : FmfuState),
      (nrf_fmfu_init dp lp resp s).1 = NRF_FMFU_RET_SUCCESS →
      ∃ (digest : nrf_fmfu_digest_buffer_t) (buffer_length : Nat),
        resp = InitResponse.ok digest buffer_length ∧
        (nrf_fmfu_init dp lp resp s).2.2.1 = some digest ∧
        (nrf_fmfu_init dp lp resp s).2.2.2 = some buffer_length ∧
        (nrf_fmfu_init dp lp resp s).2.1.modem_state = ModemState.waitingForBootloader := by
  intro dp lp resp s h
  cases dp with
  | none =>
    cases lp <;> simp [nrf_fmfu_init, NRF_FMFU_RET_INVALID_ARGUMENT, NRF_FMFU_RET_SUCCESS] at h
  | some u =>
    cases lp with
    | none =>
      simp [nrf_fmfu_init, NRF_FMFU_RET_INVALID_ARGUMENT, NRF_FMFU_RET_SUCCESS] at h
    | some v =>
      cases resp with
      | ok digest buffer_length => exact ⟨digest, buffer_length, rfl, rfl, rfl, rfl⟩
      | ipcFault =>
        simp [nrf_fmfu_init, NRF_FMFU_RET_IPC_FAULT_EVENT, NRF_FMFU_RET_SUCCESS] at h
      | unexpectedResponse =>
        simp [nrf_fmfu_init, NRF_FMFU_RET_UNEXPECTED_RESPONSE, NRF_FMFU_RET_SUCCESS] at h

/-- Witness for C3: a concrete successful `nrf_fmfu_init` call from the
uninitialized state, with the modem answering digest `sampleDigest`
and buffer length 1024. -/
theorem init_success_contract_witness :
    ∃ (digest : nrf_fmfu_digest_buffer_t) (buffer_length : Nat),
      InitResponse.ok sampleDigest 1024 = InitResponse.ok digest buffer_length ∧
      (nrf_fmfu_init (some ()) (some ()) (InitResponse.ok sampleDigest 1024)
        ⟨ModemState.uninitialized, []⟩).2.2.1 = some digest ∧
      (nrf_fmfu_init (some ()) (some ()) (InitResponse.ok sampleDigest 1024)
        ⟨ModemState.uninitialized, []⟩).2.2.2 = some buffer_length ∧
      (nrf_fmfu_init (some ()) (some ()) (InitResponse.ok sampleDigest 1024)
        ⟨ModemState.uninitialized, []⟩).2.1.modem_state = ModemState.waitingForBootloader :=
  init_success_contract (some ()) (some ()) (InitResponse.ok sampleDigest 1024)
    ⟨ModemState.uninitialized, []⟩ rfl

/-- C10: when the modem is waiting for the bootloader, the uploaded
chunk belongs to the bootloader segment and its `target_address` field
is not used: two bootloader chunks that differ only in
`target_address` produce the same return code and the same effect on
the modem. -/
theorem bootloader_chunk_ignores_target_address :
    ∀ (c1 c2 : nrf_fmfu_memory_chunk_t) (resp : WriteResponse) (s : FmfuState),
      s.modem_state = ModemState.waitingForBootloader →
      c1.data_len = c2.data_len →
      c1.data = c2.data →
      nrf_fmfu_write_memory_chunk (some c1) resp s =
        nrf_fmfu_write_memory_chunk (some c2) resp s := by
  intro c1 c2 resp s hs hlen hdata
  obtain ⟨ms, rcv⟩ := s
  simp only at hs
  subst hs
  cases resp <;> simp [nrf_fmfu_write_memory_chunk, hdata]

/-- Witness for C10: two concrete bootloader chunks carrying the bytes
`[1, 2]` at target addresses 0 and 4096 have the same result and
effect. -/
theorem bootloader_chunk_ignores_target_address_witness :
    nrf_fmfu_write_memory_chunk (some ⟨0, 2, [1, 2]⟩) WriteResponse.ok
        ⟨ModemState.waitingForBootloader, []⟩ =
      nrf_fmfu_write_memory_chunk (some ⟨4096, 2, [1, 2]⟩) WriteResponse.ok
        ⟨ModemState.waitingForBootloader, []⟩ :=
  bootloader_chunk_ignores_target_address ⟨0, 2, [1, 2]⟩ ⟨4096, 2, [1, 2]⟩
    WriteResponse.ok ⟨ModemState.waitingForBootloader, []⟩ rfl rfl rfl

/-- C1: across every operation of the API, the only transitions between
the four modem states are: `nrf_fmfu_init` moving the modem to the
waiting-for-bootloader state on success, a successful bootloader
upload via `nrf_fmfu_write_memory_chunk` moving it from
waiting-for-bootloader to ready-for-IPC-commands, and a fault on the
IPC channel moving it to the bad state; every other call leaves the
modem state unchanged. -/
theorem state_machine_transitions :
    (∀ (dp lp : Option Unit) (resp : InitResponse) (s : FmfuState),
       (nrf_fmfu_init dp lp resp s).2.1.modem_state = s.modem_state ∨
       ((nrf_fmfu_init dp lp resp s).1 = NRF_FMFU_RET_IPC_FAULT_EVENT ∧
         (nrf_fmfu_init dp lp resp s).2.1.modem_state = ModemState.bad) ∨
       ((nrf_fmfu_init dp lp resp s).1 = NRF_FMFU_RET_SUCCESS ∧
         (nrf_fmfu_init dp lp resp s).2.1.modem_state = ModemState.waitingForBootloader)) ∧
    (∀ (chunk : Option nrf_fmfu_memory_chunk_t) (resp : WriteResponse) (s : FmfuState),
       (nrf_fmfu_write_memory_chunk chunk resp s).2.modem_state = s.modem_state ∨
       ((nrf_fmfu_write_memory_chunk chunk resp s).1 = NRF_FMFU_RET_IPC_FAULT_EVENT ∧
         (nrf_fmfu_write_memory_chunk chunk resp s).2.modem_state = ModemState.bad) ∨
       ((nrf_fmfu_write_memory_chunk chunk resp s).1 = NRF_FMFU_RET_SUCCESS ∧
         s.modem_state = ModemState.waitingForBootloader ∧
         (nrf_fmfu_write_memory_chunk chunk resp s).2.modem_state =
           ModemState.readyForIpcCommands)) ∧
    (∀ (resp : EndResponse) (s : FmfuState),
       (nrf_fmfu_end resp s).2.modem_state = s.modem_state) ∧
    (∀ s : FmfuState,
       (nrf_fmfu_transfer_start s).2.modem_state = s.modem_state) ∧
    (∀ (resp : WriteResponse) (s : FmfuState),
       (nrf_fmfu_transfer_end resp s).2.modem_state = s.modem_state) ∧
    (∀ (a b : Nat) (dp : Option Unit) (resp : HashResponse) (s : FmfuState),
       (nrf_fmfu_get_memory_hash a b dp resp s).2.1.modem_state = s.modem_state ∨
       ((nrf_fmfu_get_memory_hash a b dp resp s).1 = NRF_FMFU_RET_IPC_FAULT_EVENT ∧
         (nrf_fmfu_get_memory_hash a b dp resp s).2.1.modem_state = ModemState.bad)) ∧
    (∀ (up : Option Unit) (resp : UuidResponse) (s : FmfuState),
       (nrf_fmfu_get_uuid up resp s).2.1.modem_state = s.modem_state ∨
       ((nrf_fmfu_get_uuid up resp s).1 = NRF_FMFU_RET_IPC_FAULT_EVENT ∧
         (nrf_fmfu_get_uuid up resp s).2.1.modem_state = ModemState.bad)) := by
  refine ⟨?_, ?_, ?_, ?_, ?_, ?_, ?_⟩
  · intro dp lp resp s
    cases dp with
    | none => left; cases lp <;> rfl
    | some u =>
      cases lp with
      | none => left; rfl
      | some v =>
        cases resp with
        | ok digest buffer_length => right; right; exact ⟨rfl, rfl⟩
        | ipcFault => right; left; exact ⟨rfl, rfl⟩
        | unexpectedResponse => left; rfl
  · intro chunk resp s
    cases chunk with
    | none => left; rfl
    | some c =>
      obtain ⟨ms, rcv⟩ := s
      cases ms <;> cases resp <;>
        first
        | (left; rfl)
        | (right; left; exact ⟨rfl, rfl⟩)
        | (right; right; exact ⟨rfl, rfl, rfl⟩)
  · intro resp s
    cases resp <;> rfl
  · intro s
    obtain ⟨ms, rcv⟩ := s
    cases ms <;> rfl
  · intro resp s
    obtain ⟨ms, rcv⟩ := s
    cases ms <;> cases resp <;> rfl
  · intro a b dp resp s
    cases dp with
    | none => left; rfl
    | some u =>
      obtain ⟨ms, rcv⟩ := s
      cases ms <;> cases resp <;>
        first
        | (left; rfl)
        | (right; exact ⟨rfl, rfl⟩)
  · intro up resp s
    cases up with
    | none => left; rfl
    | some u =>
      obtain ⟨ms, rcv⟩ := s
      cases ms <;> cases resp <;>
        first
        | (left; rfl)
        | (right; exact ⟨rfl, rfl⟩)

end NrfFmfu
